import Mathlib

/-!
Verification of the active-window tracking state machine of the
`ahk-wayland` KWin plugin (`src/client/kdeactiveeventlistener/
activeclienteffect.cpp`), as a shallow embedding.

Windows are opaque handles (`Nat`).  The compositor is an environment
supplying, at the moment a handler runs, the currently active window and
each window's resource class and caption.  The effect's mutable state is
`m_lastActiveWindow` and `m_polledWindows`.  Each C++ slot / lambda
becomes a pure function from the environment and the state to the new
state, the list of D-Bus signals it sends, and the list of
`QTimer::singleShot` callbacks it schedules (delay in ms, task).
-/

namespace AhkWayland

/-- Strings, modelled as lists of characters (QString). -/
abbrev Str := List Char

/-- Coerce a Lean string literal to `Str`. -/
def str (s : String) : Str := s.data

/-- `QString::startsWith`: true iff the second list is a prefix of the first. -/
def strStartsWith : Str → Str → Bool
  | _, [] => true
  | [], _ :: _ => false
  | c :: cs, p :: ps => c == p && strStartsWith cs ps

/-- `ActiveClientEffect::hasProblematicTitle`:
`title.isEmpty() || title.startsWith(QStringLiteral("_"))`. -/
def hasProblematicTitle (title : Str) : Bool :=
  title.isEmpty || strStartsWith title (str "_")

/-- A window's compositor-reported attributes: `resourceClass()` and
`caption()`. -/
structure WinProps where
  cls : Str
  title : Str
deriving DecidableEq

/-- The compositor as seen by the effect at one instant:
`workspace()->activeWindow()` and each window's current attributes. -/
structure Env where
  activeWindow : Option Nat
  props : Nat → WinProps

/-- The effect's member state: `m_lastActiveWindow` (null = `none`) and
the `QSet<Window*> m_polledWindows`. -/
structure EffState where
  lastActiveWindow : Option Nat
  polledWindows : Finset Nat
deriving DecidableEq

/-- A deferred callback passed to `QTimer::singleShot`. -/
inductive Task where
  /-- The lambda scheduled inside `retryActiveWindowTitle`, capturing
  `attempt`. -/
  | retryLambda (attempt : Nat)
  /-- `ActiveClientEffect::pollWindowTitle`. -/
  | pollTitle
  /-- `ActiveClientEffect::onActiveClientChanged` (re-armed with zero
  delay from `onWindowRemoved`). -/
  | activeChanged
  /-- `ActiveClientEffect::emitInitialState`. -/
  | initialTask
deriving DecidableEq

/-- A D-Bus signal on `/ActiveWindow`, `org.ahkwayland.ActiveWindow`:
member name plus the two ordered string arguments. -/
structure Signal where
  name : Str
  wClass : Str
  wTitle : Str
deriving DecidableEq

/-- `ActiveClientEffect::sendDBusSignal` builds the outgoing message. -/
def sendDBusSignal (name wClass wTitle : Str) : Signal :=
  ⟨name, wClass, wTitle⟩

/-- Result of running one handler: new member state, signals sent (in
order), and `(delay_ms, callback)` pairs handed to `QTimer::singleShot`
(in order). -/
structure HOut where
  st : EffState
  sigs : List Signal
  sched : List (Nat × Task)
deriving DecidableEq

/-- `ActiveClientEffect::retryActiveWindowTitle(int attempt)`:
early-return when `m_lastActiveWindow` is null; abandon (remove from
`m_polledWindows`, clear `m_lastActiveWindow`) when it is no longer the
active window; after 3 attempts arm `pollWindowTitle` in 500 ms;
otherwise arm the retry lambda after `50 * (1 << (attempt - 1))` ms. -/
def retryActiveWindowTitle (env : Env) (s : EffState) (attempt : Nat) : HOut :=
  match s.lastActiveWindow with
  | none => ⟨s, [], []⟩
  | some w =>
    if some w ≠ env.activeWindow then
      ⟨⟨none, s.polledWindows.erase w⟩, [], []⟩
    else if attempt > 3 then
      ⟨s, [], [(500, Task.pollTitle)]⟩
    else
      ⟨s, [], [(50 * 2 ^ (attempt - 1), Task.retryLambda attempt)]⟩

/-- The lambda scheduled by `retryActiveWindowTitle`, run when its timer
fires: early-return when `m_lastActiveWindow` is null; if the re-read
title is good (`!hasProblematicTitle(windowTitle) && windowTitle !=
windowClass`) send `Changed`, drop the window from `m_polledWindows` and
clear `m_lastActiveWindow`; otherwise call
`retryActiveWindowTitle(attempt + 1)`. -/
def runRetryLambda (env : Env) (s : EffState) (attempt : Nat) : HOut :=
  match s.lastActiveWindow with
  | none => ⟨s, [], []⟩
  | some w =>
    let windowClass := (env.props w).cls
    let windowTitle := (env.props w).title
    if hasProblematicTitle windowTitle = false ∧ windowTitle ≠ windowClass then
      ⟨⟨none, s.polledWindows.erase w⟩,
       [sendDBusSignal (str "Changed") windowClass windowTitle], []⟩
    else
      retryActiveWindowTitle env s (attempt + 1)

/-- `ActiveClientEffect::onActiveClientChanged`: if a window is active,
send `Changed` with its class/title; when the title is problematic or
equals the class, set `m_lastActiveWindow`, insert into
`m_polledWindows` and call `retryActiveWindowTitle(1)`; otherwise clear
`m_lastActiveWindow`. -/
def onActiveClientChanged (env : Env) (s : EffState) : HOut :=
  match env.activeWindow with
  | none => ⟨s, [], []⟩
  | some w =>
    let windowClass := (env.props w).cls
    let windowTitle := (env.props w).title
    let sig := sendDBusSignal (str "Changed") windowClass windowTitle
    if hasProblematicTitle windowTitle = true ∨ windowTitle = windowClass then
      let r := retryActiveWindowTitle env
        ⟨some w, insert w s.polledWindows⟩ 1
      ⟨r.st, sig :: r.sigs, r.sched⟩
    else
      ⟨⟨none, s.polledWindows⟩, [sig], []⟩

/-- `ActiveClientEffect::pollWindowTitle`: erase from `m_polledWindows`
every entry different from the current active window; then, if the
active window is still polled, re-read its title — on a good title send
`Changed` and remove it, otherwise re-arm another 500 ms tick. -/
def pollWindowTitle (env : Env) (s : EffState) : HOut :=
  let polled := s.polledWindows.filter (fun x => some x = env.activeWindow)
  match env.activeWindow with
  | none => ⟨⟨s.lastActiveWindow, polled⟩, [], []⟩
  | some w =>
    if w ∈ polled then
      let windowClass := (env.props w).cls
      let windowTitle := (env.props w).title
      if hasProblematicTitle windowTitle = false ∧ windowTitle ≠ windowClass then
        ⟨⟨s.lastActiveWindow, polled.erase w⟩,
         [sendDBusSignal (str "Changed") windowClass windowTitle], []⟩
      else
        ⟨⟨s.lastActiveWindow, polled⟩, [], [(500, Task.pollTitle)]⟩
    else
      ⟨⟨s.lastActiveWindow, polled⟩, [], []⟩

/-- The `captionChanged` lambda connected in
`ActiveClientEffect::onWindowAdded`: acts only when the window is the
active window; then, if it is polled and the new title is not
problematic, remove it from `m_polledWindows`; in every active case send
`Changed`. -/
def captionChangedHandler (env : Env) (s : EffState) (w : Nat) : HOut :=
  let windowClass := (env.props w).cls
  let windowTitle := (env.props w).title
  if env.activeWindow = some w then
    let polled :=
      if w ∈ s.polledWindows ∧ hasProblematicTitle windowTitle = false then
        s.polledWindows.erase w
      else s.polledWindows
    ⟨⟨s.lastActiveWindow, polled⟩,
     [sendDBusSignal (str "Changed") windowClass windowTitle], []⟩
  else
    ⟨s, [], []⟩

/-- `ActiveClientEffect::onWindowAdded`: sends `Created`; the
`captionChanged` connection it installs is modelled by caption events in
the machine below. Tracker state is not mutated. -/
def onWindowAdded (env : Env) (s : EffState) (w : Nat) : HOut :=
  ⟨s, [sendDBusSignal (str "Created") (env.props w).cls (env.props w).title], []⟩

/-- `ActiveClientEffect::onWindowRemoved`: remove the window from
`m_polledWindows`, clear `m_lastActiveWindow` if it pointed at it, send
`Destroyed` with the last known class/title, and re-arm
`onActiveClientChanged` with zero delay. -/
def onWindowRemoved (env : Env) (s : EffState) (w : Nat) : HOut :=
  ⟨⟨if s.lastActiveWindow = some w then none else s.lastActiveWindow,
    s.polledWindows.erase w⟩,
   [sendDBusSignal (str "Destroyed") (env.props w).cls (env.props w).title],
   [(0, Task.activeChanged)]⟩

/-- `ActiveClientEffect::emitInitialState`: send `Initial` for the
current active window, if any. -/
def emitInitialState (env : Env) (s : EffState) : HOut :=
  match env.activeWindow with
  | none => ⟨s, [], []⟩
  | some w =>
    ⟨s, [sendDBusSignal (str "Initial") (env.props w).cls (env.props w).title], []⟩

/-! ### The timed event machine

The Qt event loop: pending `singleShot` timers carry absolute fire
times; lifecycle callbacks are delivered at the current instant.  The
environment is read afresh by every callback at the moment it runs. -/

/-- A pending `QTimer::singleShot` callback with its absolute fire time
in ms. -/
structure Pending where
  fireAt : Nat
  task : Task
deriving DecidableEq

/-- Whole-system snapshot: member state, pending timers (in arming
order), the clock, and the log of every signal sent so far. -/
structure Sys where
  st : EffState
  timers : List Pending
  now : Nat
  log : List Signal
deriving DecidableEq

/-- A compositor lifecycle event delivered to the effect. -/
inductive Ev where
  | activated
  | added (w : Nat)
  | removed (w : Nat)
  | caption (w : Nat)
  | initialEv
deriving DecidableEq

/-- Dispatch a lifecycle event to its slot. -/
def runEv (env : Env) (s : EffState) : Ev → HOut
  | .activated => onActiveClientChanged env s
  | .added w => onWindowAdded env s w
  | .removed w => onWindowRemoved env s w
  | .caption w => captionChangedHandler env s w
  | .initialEv => emitInitialState env s

/-- Dispatch a fired timer callback. -/
def runTask (env : Env) (s : EffState) : Task → HOut
  | .retryLambda a => runRetryLambda env s a
  | .pollTitle => pollWindowTitle env s
  | .activeChanged => onActiveClientChanged env s
  | .initialTask => emitInitialState env s

/-- Turn relative delays into pending timers armed at instant `now`. -/
def arm (now : Nat) (sched : List (Nat × Task)) : List Pending :=
  sched.map (fun p => ⟨now + p.1, p.2⟩)

/-- Fold one handler result into the system at instant `now2`, keeping
the surviving timers `rest`. -/
def applyOut (sys : Sys) (now2 : Nat) (o : HOut) (rest : List Pending) : Sys :=
  ⟨o.st, rest ++ arm now2 o.sched, now2, sys.log ++ o.sigs⟩

/-- Deliver a lifecycle event at the current instant, with the
environment as the compositor reports it at that instant. -/
def deliver (env : Env) (e : Ev) (sys : Sys) : Sys :=
  applyOut sys sys.now (runEv env sys.st e) sys.timers

/-- Fire the first pending timer, advancing the clock to its fire
time. -/
def fireNext (env : Env) (sys : Sys) : Sys :=
  match sys.timers with
  | [] => sys
  | t :: rest =>
    applyOut sys (max sys.now t.fireAt) (runTask env sys.st t.task) rest

/-- The effect's state at plugin start: null pointer, empty set. -/
def sys0 : Sys := ⟨⟨none, ∅⟩, [], 0, []⟩

/-! ### Concrete environments for the scenario runs -/

/-- Window 0 with class `"app"` and a stuck empty caption. -/
def envStuck : Env :=
  ⟨some 0, fun _ => ⟨str "app", str ""⟩⟩

/-- Window 0 active, caption now the usable `"Doc"`. -/
def envDoc : Env :=
  ⟨some 0, fun _ => ⟨str "app", str "Doc"⟩⟩

/-- Window 1 active; window 0 (still polled) keeps class `"app"`,
caption `""`. -/
def envOther : Env :=
  ⟨some 1, fun w => if w = 0 then ⟨str "app", str ""⟩ else ⟨str "b", str ""⟩⟩

/-- Window 1 active; window 0 meanwhile got the usable caption
`"Doc"`. -/
def envOtherDoc : Env :=
  ⟨some 1, fun w => if w = 0 then ⟨str "app", str "Doc"⟩ else ⟨str "b", str ""⟩⟩

/-- Window 0 active with caption identical to its class `"firefox"`. -/
def envSameClass : Env :=
  ⟨some 0, fun _ => ⟨str "firefox", str "firefox"⟩⟩

/-- No window active. -/
def envNone : Env :=
  ⟨none, fun _ => ⟨str "x", str "y"⟩⟩

/-! Nominal stuck run: window 0 is activated with the empty caption and
the caption never improves.  `stuck1` is the state right after the
activation callback; each further state fires the single pending
timer. -/

/-- After activating window 0 with a stuck problematic title. -/
def stuck1 : Sys := deliver envStuck .activated sys0

/-- After the first retry check fires (at 50 ms). -/
def stuck2 : Sys := fireNext envStuck stuck1

/-- After the second retry check fires (at 150 ms). -/
def stuck3 : Sys := fireNext envStuck stuck2

/-- After the third retry check fires (at 350 ms). -/
def stuck4 : Sys := fireNext envStuck stuck3

/-- After the first slow-poll tick fires (at 850 ms). -/
def stuck5 : Sys := fireNext envStuck stuck4

/-! Resolution race run: window 0 is activated with the empty caption;
before the first retry check fires, a caption change delivers the
usable title `"Doc"`; then the pending retry check fires. -/

/-- After activating window 0 with the stuck empty caption. -/
def race1 : Sys := deliver envStuck .activated sys0

/-- After the caption-change callback delivers the usable `"Doc"`. -/
def race2 : Sys := deliver envDoc (.caption 0) race1

/-- After the still-pending retry check fires at 50 ms. -/
def race3 : Sys := fireNext envDoc race2

/-! Double activation run: window 0 is activated with a problematic
title, then window 1 is activated with a problematic title before any
retry check for window 0 has fired. -/

/-- After the two back-to-back problematic activations. -/
def twoAct : Sys := deliver envOther .activated (deliver envStuck .activated sys0)

/-! ### Helper lemmas about the individual handlers -/

lemma retry_sched (env : Env) (pw : Finset Nat) (w a : Nat)
    (hact : env.activeWindow = some w) (h3 : a ≤ 3) :
    retryActiveWindowTitle env ⟨some w, pw⟩ a
      = ⟨⟨some w, pw⟩, [], [(50 * 2 ^ (a - 1), Task.retryLambda a)]⟩ := by
  simp [retryActiveWindowTitle, hact, Nat.not_lt.mpr h3]

lemma retry_handoff (env : Env) (pw : Finset Nat) (w a : Nat)
    (hact : env.activeWindow = some w) (h3 : 3 < a) :
    retryActiveWindowTitle env ⟨some w, pw⟩ a
      = ⟨⟨some w, pw⟩, [], [(500, Task.pollTitle)]⟩ := by
  simp [retryActiveWindowTitle, hact, h3]

lemma retry_abort (env : Env) (pw : Finset Nat) (w a : Nat)
    (hact : some w ≠ env.activeWindow) :
    retryActiveWindowTitle env ⟨some w, pw⟩ a = ⟨⟨none, pw.erase w⟩, [], []⟩ := by
  simp [retryActiveWindowTitle, hact]

lemma retryLambda_resolve (env : Env) (pw : Finset Nat) (w a : Nat)
    (hgood : hasProblematicTitle (env.props w).title = false)
    (hne : (env.props w).title ≠ (env.props w).cls) :
    runRetryLambda env ⟨some w, pw⟩ a
      = ⟨⟨none, pw.erase w⟩,
         [sendDBusSignal (str "Changed") (env.props w).cls (env.props w).title],
         []⟩ := by
  simp [runRetryLambda, hgood, hne]

lemma retryLambda_fail (env : Env) (pw : Finset Nat) (w a : Nat)
    (hbad : ¬(hasProblematicTitle (env.props w).title = false
              ∧ (env.props w).title ≠ (env.props w).cls)) :
    runRetryLambda env ⟨some w, pw⟩ a
      = retryActiveWindowTitle env ⟨some w, pw⟩ (a + 1) := by
  simp only [runRetryLambda]
  rw [if_neg hbad]

lemma poll_none (env : Env) (s : EffState) (h : env.activeWindow = none) :
    pollWindowTitle env s
      = ⟨⟨s.lastActiveWindow, s.polledWindows.filter (fun x => some x = env.activeWindow)⟩,
         [], []⟩ := by
  simp [pollWindowTitle, h]

lemma poll_filter_self (env : Env) (s : EffState) (w : Nat)
    (hact : env.activeWindow = some w) (hmem : w ∈ s.polledWindows) :
    w ∈ s.polledWindows.filter (fun x => some x = env.activeWindow) := by
  simp [Finset.mem_filter, hact, hmem]

lemma poll_resolve (env : Env) (s : EffState) (w : Nat)
    (hact : env.activeWindow = some w) (hmem : w ∈ s.polledWindows)
    (hgood : hasProblematicTitle (env.props w).title = false)
    (hne : (env.props w).title ≠ (env.props w).cls) :
    pollWindowTitle env s
      = ⟨⟨s.lastActiveWindow,
          (s.polledWindows.filter (fun x => some x = env.activeWindow)).erase w⟩,
         [sendDBusSignal (str "Changed") (env.props w).cls (env.props w).title],
         []⟩ := by
  simp [pollWindowTitle, hact, hmem, hgood, hne]

lemma poll_rearm (env : Env) (s : EffState) (w : Nat)
    (hact : env.activeWindow = some w) (hmem : w ∈ s.polledWindows)
    (hbad : ¬(hasProblematicTitle (env.props w).title = false
              ∧ (env.props w).title ≠ (env.props w).cls)) :
    pollWindowTitle env s
      = ⟨⟨s.lastActiveWindow,
          s.polledWindows.filter (fun x => some x = some w)⟩,
         [], [(500, Task.pollTitle)]⟩ := by
  have hself : w ∈ s.polledWindows.filter (fun x => some x = some w) := by
    simp [Finset.mem_filter, hmem]
  simp only [pollWindowTitle, hact]
  rw [if_pos hself, if_neg hbad]

lemma poll_mem (env : Env) (s : EffState) (w : Nat)
    (h : w ∈ (pollWindowTitle env s).st.polledWindows) :
    env.activeWindow = some w := by
  cases henv : env.activeWindow with
  | none => simp [pollWindowTitle, henv] at h
  | some v =>
    simp only [pollWindowTitle, henv] at h
    split at h
    · split at h
      · simp only [HOut.st] at h
        have hwv : w = v := by
          simpa [henv] using (Finset.mem_filter.mp (Finset.mem_of_mem_erase h)).2
        rw [hwv]
      · simp only [HOut.st] at h
        have hwv : w = v := by
          simpa [henv] using (Finset.mem_filter.mp h).2
        rw [hwv]
    · simp only [HOut.st] at h
      have hwv : w = v := by
        simpa [henv] using (Finset.mem_filter.mp h).2
      rw [hwv]

lemma str_underscore : str "_" = ['_'] := rfl

/-! ### The claims -/

/-- C5: the title-quality classifier `hasProblematicTitle` is a pure
function returning true iff the title is the empty string or its first
character is the underscore sentinel. -/
theorem claim_C5 (t : Str) :
    hasProblematicTitle t = true ↔ t = [] ∨ ∃ r, t = '_' :: r := by
  cases t with
  | nil => simp [hasProblematicTitle]
  | cons c cs =>
    simp only [hasProblematicTitle, str_underscore, strStartsWith, List.isEmpty_cons,
      Bool.false_or, Bool.and_eq_true, beq_iff_eq]
    constructor
    · rintro ⟨hc, -⟩
      exact Or.inr ⟨cs, by rw [hc]⟩
    · rintro (h | ⟨r, hr⟩)
      · exact absurd h (List.cons_ne_nil c cs)
      · obtain ⟨hc, -⟩ := List.cons.injEq .. ▸ hr
        exact ⟨hc, trivial⟩

/-- C10: when the activation handler runs with no active window reported
by the compositor, it emits nothing, schedules nothing, and leaves the
tracker state untouched. -/
theorem claim_C10 (env : Env) (s : EffState) (h : env.activeWindow = none) :
    onActiveClientChanged env s = ⟨s, [], []⟩ := by
  simp [onActiveClientChanged, h]

/-- Witness for C10 at a concrete no-active-window environment. -/
theorem claim_C10_wit :
    onActiveClientChanged envNone ⟨some 0, {0}⟩ = ⟨⟨some 0, {0}⟩, [], []⟩ :=
  claim_C10 envNone ⟨some 0, {0}⟩ rfl

/-- C8: a caption change on a window that is not the active window emits
nothing and changes no tracker state, however often it repeats. -/
theorem claim_C8 (env : Env) (s : EffState) (w : Nat)
    (h : env.activeWindow ≠ some w) :
    captionChangedHandler env s w = ⟨s, [], []⟩ := by
  simp [captionChangedHandler, h]

/-- Witness for C8: window 0's caption change while window 1 is active. -/
theorem claim_C8_wit :
    captionChangedHandler envOther ⟨some 0, {0}⟩ 0 = ⟨⟨some 0, {0}⟩, [], []⟩ :=
  claim_C8 envOther ⟨some 0, {0}⟩ 0 (by decide)

/-- C7: destroying a window emits exactly one `Destroyed` signal with its
last-known class and title, removes it from the polled set (other
entries untouched), clears `m_lastActiveWindow` when it pointed at it
(untouched otherwise), and re-arms the activation handler with zero
delay. -/
theorem claim_C7 (env : Env) (s : EffState) (w : Nat) :
    (onWindowRemoved env s w).sigs
        = [sendDBusSignal (str "Destroyed") (env.props w).cls (env.props w).title]
    ∧ w ∉ (onWindowRemoved env s w).st.polledWindows
    ∧ (onWindowRemoved env s w).st.lastActiveWindow ≠ some w
    ∧ (s.lastActiveWindow ≠ some w →
        (onWindowRemoved env s w).st.lastActiveWindow = s.lastActiveWindow)
    ∧ (∀ v, v ≠ w →
        ((v ∈ (onWindowRemoved env s w).st.polledWindows) ↔ v ∈ s.polledWindows))
    ∧ (onWindowRemoved env s w).sched = [(0, Task.activeChanged)] := by
  refine ⟨rfl, ?_, ?_, ?_, ?_, rfl⟩
  · simp [onWindowRemoved]
  · simp only [onWindowRemoved]
    split <;> simp_all
  · intro h
    simp [onWindowRemoved, h]
  · intro v hv
    simp [onWindowRemoved, Finset.mem_erase, hv]

/-- Witness for C7's conditional parts: removing window 0 while window 1
was the tracked window keeps `m_lastActiveWindow` and window 1's polled
membership. -/
theorem claim_C7_wit :
    (onWindowRemoved envStuck ⟨some 1, {0, 1}⟩ 0).st.lastActiveWindow = some 1
    ∧ ((1 ∈ (onWindowRemoved envStuck ⟨some 1, {0, 1}⟩ 0).st.polledWindows)
        ↔ 1 ∈ ({0, 1} : Finset Nat)) :=
  ⟨(claim_C7 envStuck ⟨some 1, {0, 1}⟩ 0).2.2.2.1 (by decide),
   (claim_C7 envStuck ⟨some 1, {0, 1}⟩ 0).2.2.2.2.1 1 (by decide)⟩

/-- C2: activating a window W emits exactly one immediate `Changed`
signal with W's current class and title; when the title is problematic
or equals the class, W becomes the tracked window, joins the polled set,
and the first retry check is armed at 50 ms; otherwise the tracked
window reference is cleared and nothing is scheduled. -/
theorem claim_C2 (env : Env) (s : EffState) (w : Nat)
    (h : env.activeWindow = some w) :
    (onActiveClientChanged env s).sigs
        = [sendDBusSignal (str "Changed") (env.props w).cls (env.props w).title]
    ∧ ((hasProblematicTitle (env.props w).title = true
         ∨ (env.props w).title = (env.props w).cls) →
        (onActiveClientChanged env s).st = ⟨some w, insert w s.polledWindows⟩
        ∧ (onActiveClientChanged env s).sched = [(50, Task.retryLambda 1)])
    ∧ (¬(hasProblematicTitle (env.props w).title = true
         ∨ (env.props w).title = (env.props w).cls) →
        (onActiveClientChanged env s).st = ⟨none, s.polledWindows⟩
        ∧ (onActiveClientChanged env s).sched = []) := by
  have hr := retry_sched env (insert w s.polledWindows) w 1 h (by norm_num)
  by_cases hc : hasProblematicTitle (env.props w).title = true
      ∨ (env.props w).title = (env.props w).cls
  · have he : onActiveClientChanged env s
        = ⟨⟨some w, insert w s.polledWindows⟩,
           [sendDBusSignal (str "Changed") (env.props w).cls (env.props w).title],
           [(50, Task.retryLambda 1)]⟩ := by
      simp only [onActiveClientChanged, h, if_pos hc, hr]
      norm_num
    rw [he]
    exact ⟨rfl, fun _ => ⟨rfl, rfl⟩, fun hg => absurd hc hg⟩
  · have he : onActiveClientChanged env s
        = ⟨⟨none, s.polledWindows⟩,
           [sendDBusSignal (str "Changed") (env.props w).cls (env.props w).title],
           []⟩ := by
      simp only [onActiveClientChanged, h, if_neg hc]
    rw [he]
    exact ⟨rfl, fun hg => absurd hg hc, fun _ => ⟨rfl, rfl⟩⟩

/-- Witness for C2 in both branches: activating window 0 with the stuck
empty title starts the retry sequence; activating it with the usable
`"Doc"` clears the tracked reference and schedules nothing. -/
theorem claim_C2_wit :
    ((onActiveClientChanged envStuck ⟨none, ∅⟩).st
        = ⟨some 0, insert 0 (∅ : Finset Nat)⟩
      ∧ (onActiveClientChanged envStuck ⟨none, ∅⟩).sched
        = [(50, Task.retryLambda 1)])
    ∧ ((onActiveClientChanged envDoc ⟨none, ∅⟩).st = ⟨none, (∅ : Finset Nat)⟩
      ∧ (onActiveClientChanged envDoc ⟨none, ∅⟩).sched = []) :=
  ⟨(claim_C2 envStuck ⟨none, ∅⟩ 0 rfl).2.1 (by decide),
   (claim_C2 envDoc ⟨none, ∅⟩ 0 rfl).2.2 (by decide)⟩

/-- C3 counterexample: with caption `"firefox"` equal to the class
`"firefox"` — not usable by the claim's definition — the caption-change
handler still removes the active polled window from the polled set,
because the code only tests `hasProblematicTitle` there. -/
theorem claim_C3_cex :
    (0 ∈ (⟨some 0, ({0} : Finset Nat)⟩ : EffState).polledWindows)
    ∧ 0 ∉ (captionChangedHandler envSameClass ⟨some 0, {0}⟩ 0).st.polledWindows
    ∧ ¬(hasProblematicTitle (envSameClass.props 0).title = false
        ∧ (envSameClass.props 0).title ≠ (envSameClass.props 0).cls) := by
  decide

/-- C3 (amended): on a caption change of the active, polled window W,
W is removed from the polled set iff the new title is not problematic
(non-empty, no underscore sentinel) — the handler does not compare the
title with the class; the signal is always emitted for the active
window. -/
theorem claim_C3_amended (env : Env) (s : EffState) (w : Nat)
    (hact : env.activeWindow = some w) (hmem : w ∈ s.polledWindows) :
    (w ∉ (captionChangedHandler env s w).st.polledWindows
      ↔ hasProblematicTitle (env.props w).title = false)
    ∧ (captionChangedHandler env s w).sigs
        = [sendDBusSignal (str "Changed") (env.props w).cls (env.props w).title] := by
  constructor
  · by_cases hp : hasProblematicTitle (env.props w).title = false
    · simp [captionChangedHandler, hact, hmem, hp]
    · simp [captionChangedHandler, hact, hmem, hp]
  · simp [captionChangedHandler, hact]

/-- Witness for C3 (amended): the non-problematic caption `"firefox"`
gets window 0 removed from the polled set. -/
theorem claim_C3_amended_wit :
    0 ∉ (captionChangedHandler envSameClass ⟨some 0, {0}⟩ 0).st.polledWindows :=
  (claim_C3_amended envSameClass ⟨some 0, {0}⟩ 0 rfl (by decide)).1.mpr (by decide)

/-- C1 counterexample: in the nominal stuck run the second re-check is
armed 100 ms after the first one and fires at elapsed 150 ms — not with
the claimed 150 ms delay (elapsed 200 ms). -/
theorem claim_C1_cex :
    stuck2.timers = [⟨150, Task.retryLambda 2⟩]
    ∧ stuck2.timers ≠ [⟨200, Task.retryLambda 2⟩] := by
  decide

/-- C1 (amended): the three quick re-check delays are
`50 * 2^(attempt-1)` ms = 50, 100, 200 ms, so in the stuck run the
checks fire at elapsed 50, 150, 350 ms; after the third failed check a
500 ms slow poll takes over (first tick at 850 ms, then every 500 ms
while the title stays bad), and the poll stops re-arming when the title
is usable and drops windows that are no longer active. -/
theorem claim_C1_amended :
    (∀ (env : Env) (pw : Finset Nat) (w a : Nat),
        env.activeWindow = some w → 1 ≤ a → a ≤ 3 →
        retryActiveWindowTitle env ⟨some w, pw⟩ a
          = ⟨⟨some w, pw⟩, [], [(50 * 2 ^ (a - 1), Task.retryLambda a)]⟩)
    ∧ (∀ (env : Env) (pw : Finset Nat) (w : Nat),
        env.activeWindow = some w →
        retryActiveWindowTitle env ⟨some w, pw⟩ 4
          = ⟨⟨some w, pw⟩, [], [(500, Task.pollTitle)]⟩)
    ∧ (stuck1.timers = [⟨50, Task.retryLambda 1⟩]
       ∧ stuck2.timers = [⟨150, Task.retryLambda 2⟩]
       ∧ stuck3.timers = [⟨350, Task.retryLambda 3⟩]
       ∧ stuck4.timers = [⟨850, Task.pollTitle⟩]
       ∧ stuck5.timers = [⟨1350, Task.pollTitle⟩])
    ∧ (∀ (env : Env) (s : EffState) (w : Nat),
        env.activeWindow = some w → w ∈ s.polledWindows →
        ¬(hasProblematicTitle (env.props w).title = false
          ∧ (env.props w).title ≠ (env.props w).cls) →
        (pollWindowTitle env s).sigs = []
        ∧ (pollWindowTitle env s).sched = [(500, Task.pollTitle)])
    ∧ (∀ (env : Env) (s : EffState) (w : Nat),
        env.activeWindow = some w → w ∈ s.polledWindows →
        hasProblematicTitle (env.props w).title = false →
        (env.props w).title ≠ (env.props w).cls →
        (pollWindowTitle env s).sched = []
        ∧ w ∉ (pollWindowTitle env s).st.polledWindows)
    ∧ (∀ (env : Env) (s : EffState) (w : Nat),
        env.activeWindow ≠ some w →
        w ∉ (pollWindowTitle env s).st.polledWindows) := by
  refine ⟨?_, ?_, ?_, ?_, ?_, ?_⟩
  · exact fun env pw w a hact _ h3 => retry_sched env pw w a hact h3
  · exact fun env pw w hact => retry_handoff env pw w 4 hact (by norm_num)
  · exact ⟨by decide, by decide, by decide, by decide, by decide⟩
  · intro env s w hact hmem hbad
    rw [poll_rearm env s w hact hmem hbad]
    exact ⟨rfl, rfl⟩
  · intro env s w hact hmem hgood hne
    rw [poll_resolve env s w hact hmem hgood hne]
    exact ⟨rfl, by simp⟩
  · intro env s w hne hmem
    exact hne (poll_mem env s w hmem)

/-- Witness for C1 (amended): the concrete delays 100 ms (attempt 2) and
the 500 ms handoff/re-arm/stop behaviours at window 0. -/
theorem claim_C1_amended_wit :
    retryActiveWindowTitle envStuck ⟨some 0, {0}⟩ 2
      = ⟨⟨some 0, {0}⟩, [], [(100, Task.retryLambda 2)]⟩
    ∧ retryActiveWindowTitle envStuck ⟨some 0, {0}⟩ 4
      = ⟨⟨some 0, {0}⟩, [], [(500, Task.pollTitle)]⟩
    ∧ (pollWindowTitle envStuck ⟨some 0, {0}⟩).sched = [(500, Task.pollTitle)]
    ∧ (pollWindowTitle envDoc ⟨some 0, {0}⟩).sched = []
    ∧ 0 ∉ (pollWindowTitle envOther ⟨some 0, {0}⟩).st.polledWindows := by
  refine ⟨?_, ?_, ?_, ?_, ?_⟩
  · have h := claim_C1_amended.1 envStuck {0} 0 2 rfl (by norm_num) (by norm_num)
    simpa using h
  · exact claim_C1_amended.2.1 envStuck {0} 0 rfl
  · exact (claim_C1_amended.2.2.2.1 envStuck ⟨some 0, {0}⟩ 0 rfl (by decide)
      (by decide)).2
  · exact (claim_C1_amended.2.2.2.2.1 envDoc ⟨some 0, {0}⟩ 0 rfl (by decide)
      (by decide) (by decide)).1
  · exact claim_C1_amended.2.2.2.2.2 envOther ⟨some 0, {0}⟩ 0 (by decide)

/-- C4 counterexample: window 0 is activated with the stuck empty
caption; the caption-change handler then observes the usable `"Doc"` and
emits `Changed`, but it leaves `m_lastActiveWindow` set, so the pending
retry check emits a second `Changed` for the same resolution. -/
theorem claim_C4_cex :
    race3.log
      = [sendDBusSignal (str "Changed") (str "app") (str ""),
         sendDBusSignal (str "Changed") (str "app") (str "Doc"),
         sendDBusSignal (str "Changed") (str "app") (str "Doc")]
    ∧ race2.st.lastActiveWindow = some 0 := by
  decide

/-- C4 (amended): when a retry check or a slow-poll tick itself observes
the now-usable title, that callback emits exactly one `Changed` and
removes the window from the polled set (the retry check also clears
`m_lastActiveWindow`; the poll tick leaves it unchanged); but a
resolution first observed by the caption-change handler leaves
`m_lastActiveWindow` set, so a still-pending retry check emits one more
`Changed` for the same resolution. -/
theorem claim_C4_amended :
    (∀ (env : Env) (pw : Finset Nat) (w a : Nat),
        hasProblematicTitle (env.props w).title = false →
        (env.props w).title ≠ (env.props w).cls →
        runRetryLambda env ⟨some w, pw⟩ a
          = ⟨⟨none, pw.erase w⟩,
             [sendDBusSignal (str "Changed") (env.props w).cls (env.props w).title],
             []⟩)
    ∧ (∀ (env : Env) (s : EffState) (w : Nat),
        env.activeWindow = some w → w ∈ s.polledWindows →
        hasProblematicTitle (env.props w).title = false →
        (env.props w).title ≠ (env.props w).cls →
        (pollWindowTitle env s).sigs
            = [sendDBusSignal (str "Changed") (env.props w).cls (env.props w).title]
        ∧ w ∉ (pollWindowTitle env s).st.polledWindows
        ∧ (pollWindowTitle env s).sched = []
        ∧ (pollWindowTitle env s).st.lastActiveWindow = s.lastActiveWindow) := by
  constructor
  · exact fun env pw w a hgood hne => retryLambda_resolve env pw w a hgood hne
  · intro env s w hact hmem hgood hne
    rw [poll_resolve env s w hact hmem hgood hne]
    exact ⟨rfl, by simp, rfl, rfl⟩

/-- Witness for C4 (amended): window 0 resolving to `"Doc"` through the
retry check and through a poll tick. -/
theorem claim_C4_amended_wit :
    runRetryLambda envDoc ⟨some 0, {0}⟩ 2
      = ⟨⟨none, ∅⟩, [sendDBusSignal (str "Changed") (str "app") (str "Doc")], []⟩
    ∧ (pollWindowTitle envDoc ⟨some 0, {0}⟩).sigs
        = [sendDBusSignal (str "Changed") (str "app") (str "Doc")]
    ∧ 0 ∉ (pollWindowTitle envDoc ⟨some 0, {0}⟩).st.polledWindows := by
  refine ⟨?_, ?_, ?_⟩
  · have h := claim_C4_amended.1 envDoc {0} 0 2 (by decide) (by decide)
    simpa using h
  · exact (claim_C4_amended.2 envDoc ⟨some 0, {0}⟩ 0 rfl (by decide) (by decide)
      (by decide)).1
  · exact (claim_C4_amended.2 envDoc ⟨some 0, {0}⟩ 0 rfl (by decide) (by decide)
      (by decide)).2.1

/-- C6 counterexample: immediately after the lifecycle event that
activates window 1, window 0 — no longer the active window — is still in
the polled set: removal is not "as soon as", it waits for the next
check or poll tick. -/
theorem claim_C6_cex :
    0 ∈ twoAct.st.polledWindows
    ∧ envOther.activeWindow = some 1
    ∧ (some 1 ≠ (some 0 : Option Nat)) := by
  decide

/-- C6 (amended): a destroyed window leaves the polled set immediately,
and a retry check aborting on a no-longer-active window removes it; but
a window that merely stops being active (or whose title becomes usable)
stays in the polled set until the next retry check or slow-poll tick —
after any slow-poll tick every remaining polled handle is the active
window. -/
theorem claim_C6_amended :
    (∀ (env : Env) (s : EffState) (w : Nat),
        w ∈ (pollWindowTitle env s).st.polledWindows → env.activeWindow = some w)
    ∧ (∀ (env : Env) (s : EffState) (w : Nat),
        w ∉ (onWindowRemoved env s w).st.polledWindows)
    ∧ (∀ (env : Env) (pw : Finset Nat) (w a : Nat),
        some w ≠ env.activeWindow →
        w ∉ (retryActiveWindowTitle env ⟨some w, pw⟩ a).st.polledWindows) := by
  refine ⟨poll_mem, ?_, ?_⟩
  · intro env s w
    simp [onWindowRemoved]
  · intro env pw w a hne
    rw [retry_abort env pw w a hne]
    simp

/-- Witness for C6 (amended): a poll tick with window 0 polled while
window 0 is active, and a retry check for window 0 while window 1 is
active. -/
theorem claim_C6_amended_wit :
    envStuck.activeWindow = some 0
    ∧ 0 ∉ (onWindowRemoved envStuck ⟨some 0, {0}⟩ 0).st.polledWindows
    ∧ 0 ∉ (retryActiveWindowTitle envOther ⟨some 0, {0}⟩ 2).st.polledWindows :=
  ⟨claim_C6_amended.1 envStuck ⟨some 0, {0}⟩ 0 (by decide),
   claim_C6_amended.2.1 envStuck ⟨some 0, {0}⟩ 0,
   claim_C6_amended.2.2 envOther {0} 0 2 (by decide)⟩

/-- C9 counterexample: the retry check for window 0 fires while window 1
is active, yet — because window 0's re-read title `"Doc"` is usable —
it emits a `Changed` notification instead of aborting silently. -/
theorem claim_C9_cex :
    runRetryLambda envOtherDoc ⟨some 0, {0}⟩ 1
      = ⟨⟨none, ∅⟩, [sendDBusSignal (str "Changed") (str "app") (str "Doc")], []⟩
    ∧ envOtherDoc.activeWindow ≠ some 0 := by
  decide

/-- C9 (amended): a scheduled retry check that fires with its target no
longer active aborts silently — target dropped from the polled set and
`m_lastActiveWindow` cleared, no signal, nothing further scheduled —
only when the re-read title is still not usable; the activity guard in
`retryActiveWindowTitle` itself always aborts silently. -/
theorem claim_C9_amended :
    (∀ (env : Env) (pw : Finset Nat) (w a : Nat),
        some w ≠ env.activeWindow →
        ¬(hasProblematicTitle (env.props w).title = false
          ∧ (env.props w).title ≠ (env.props w).cls) →
        runRetryLambda env ⟨some w, pw⟩ a = ⟨⟨none, pw.erase w⟩, [], []⟩)
    ∧ (∀ (env : Env) (pw : Finset Nat) (w a : Nat),
        some w ≠ env.activeWindow →
        retryActiveWindowTitle env ⟨some w, pw⟩ a
          = ⟨⟨none, pw.erase w⟩, [], []⟩) := by
  constructor
  · intro env pw w a hne hbad
    rw [retryLambda_fail env pw w a hbad]
    exact retry_abort env pw w (a + 1) hne
  · exact fun env pw w a hne => retry_abort env pw w a hne

/-- Witness for C9 (amended): window 0's check fires while window 1 is
active and window 0's title is still the problematic empty string. -/
theorem claim_C9_amended_wit :
    runRetryLambda envOther ⟨some 0, {0}⟩ 1 = ⟨⟨none, ∅⟩, [], []⟩
    ∧ retryActiveWindowTitle envOther ⟨some 0, {0}⟩ 1 = ⟨⟨none, ∅⟩, [], []⟩ := by
  constructor
  · have h := claim_C9_amended.1 envOther {0} 0 1 (by decide) (by decide)
    simpa using h
  · have h := claim_C9_amended.2 envOther {0} 0 1 (by decide)
    simpa using h

end AhkWayland
